import Mathlib

/-!
Shallow embedding of the model-artifact service (FastAPI backend):
the S3 object-store manager, the metadata repository over a relational
store, and the application service coordinating uploads, downloads and
paginated listings.

Conventions of the embedding:
* File contents are byte lists (`List Nat`).
* The object store is an association list keyed by storage key; a put
  prepends, and a get reads the most recent binding, which models
  overwrite-on-put.
* The relational store is a list of committed rows plus the
  auto-increment counter for the primary key.
* Nondeterministic collaborator outcomes are supplied by oracles: a
  per-file predicate for object-store put success, a Boolean for a
  storage-layer (SQLAlchemy) failure of the batch insert, and an
  abstract probe outcome for the head-bucket connectivity check.
* Timestamps are abstract `Nat` values supplied by a `now` parameter
  (the source uses a `datetime.now` default factory).
* Calls the service makes to its two backing stores are recorded in an
  effect trace (`List StoreOp`), so that claims about which storage
  operations are attempted can be stated.
-/

/-- One uploaded file: original filename and full content bytes
(`fastapi.UploadFile` with its content stream already read). -/
structure UploadFile where
  filename : String
  content : List Nat
deriving DecidableEq, Repr

/-- Embedding of the Python expression `filename.replace('.pth', '')`
specialised to the fixed pattern `".pth"` and empty replacement:
left-to-right scan removing every non-overlapping occurrence, on the
character list underlying the string. -/
def removePthL : List Char → List Char
  | '.' :: 'p' :: 't' :: 'h' :: rest => removePthL rest
  | c :: cs => c :: removePthL cs
  | [] => []

/-- `s.replace('.pth', '')` at the string level. -/
def replacePthEmpty (s : String) : String :=
  (removePthL s.data).asString

/-- Number of (non-overlapping, left-to-right) occurrences of `".pth"`
removed by `removePthL`. -/
def countPth : List Char → Nat
  | '.' :: 'p' :: 't' :: 'h' :: rest => countPth rest + 1
  | _ :: cs => countPth cs
  | [] => 0

/-- State of the S3 bucket: bindings from storage key to object bytes.
A later binding for the same key shadows an earlier one. -/
structure S3State where
  objects : List (String × List Nat)
deriving DecidableEq, Repr

/-- `put_object(Bucket, Key, Body)`: write (or overwrite) the object
under `key`. -/
def s3PutObject (st : S3State) (key : String) (body : List Nat) : S3State :=
  { objects := (key, body) :: st.objects }

/-- `get_object(Bucket, Key)` followed by reading the body: the bytes
stored under `key`, or `none` when no such object exists (the failure
case of the download). -/
def s3GetObject (st : S3State) (key : String) : Option (List Nat) :=
  (st.objects.find? (fun p => p.1 == key)).map (fun p => p.2)

/-- One entry of the result list of `S3Manager.upload_files`: the
per-file outcome dictionary. -/
structure UploadResult where
  filename : String
  model_name : String
  s3_key : Option String
  file_size : Nat
  success : Bool
  error : Option String
deriving DecidableEq, Repr

/-- Domain object `PthModelMetadata` (dataclass): `id` is absent before
persistence, `created_at` defaults to the construction time. -/
structure PthModelMetadata where
  model_name : String
  s3_key : String
  file_size : Nat
  id : Option Nat := none
  created_at : Nat := 0
deriving DecidableEq, Repr

/-- Storage operations the service issues against its collaborators,
recorded as an effect trace. The batch-insert operation carries the
domain objects submitted to the metadata store. -/
inductive StoreOp where
  | s3Put (key : String)
  | s3Get (key : String)
  | s3Head
  | dbInsertBatch (batch : List PthModelMetadata)
  | dbGetById (id : Nat)
  | dbPage (offset limit : Nat)
  | dbCount
deriving DecidableEq, Repr

/-- `S3Manager.upload_files`, indexed loop: for the file at position
`i` the oracle `putOk i` tells whether the `put_object` call succeeds
(`True`) or raises `ClientError`/`NoCredentialsError` (`False`).
Returns the per-file outcome list, the bucket state after all writes,
and the trace of attempted puts. -/
def uploadFilesAux (putOk : Nat → Bool) :
    Nat → List UploadFile → S3State → (List UploadResult × S3State × List StoreOp)
  | _, [], st => ([], st, [])
  | i, f :: fs, st =>
    let model_name := replacePthEmpty f.filename
    if putOk i then
      let st' := s3PutObject st f.filename f.content
      let r : UploadResult :=
        { filename := f.filename, model_name := model_name,
          s3_key := some f.filename, file_size := f.content.length,
          success := true, error := none }
      let rest := uploadFilesAux putOk (i + 1) fs st'
      (r :: rest.1, rest.2.1, StoreOp.s3Put f.filename :: rest.2.2)
    else
      let r : UploadResult :=
        { filename := f.filename, model_name := model_name,
          s3_key := none, file_size := 0,
          success := false, error := some "S3 업로드 실패" }
      let rest := uploadFilesAux putOk (i + 1) fs st
      (r :: rest.1, rest.2.1, StoreOp.s3Put f.filename :: rest.2.2)

/-- `S3Manager.upload_files(files)`. -/
def upload_files (putOk : Nat → Bool) (files : List UploadFile) (st : S3State) :
    List UploadResult × S3State × List StoreOp :=
  uploadFilesAux putOk 0 files st

/-- Outcome of the `head_bucket` probe: success, or one of the
exception classes the manager's error surface declares. -/
inductive S3ProbeOutcome where
  | ok
  | clientError
  | noCredentialsError
deriving DecidableEq, Repr

/-- The `head_bucket` call: raises on a failing probe. -/
def head_bucket (probe : S3ProbeOutcome) : Except S3ProbeOutcome Unit :=
  match probe with
  | S3ProbeOutcome.ok => Except.ok ()
  | e => Except.error e

/-- `S3Manager.test_connection`: probes the bucket and catches
`ClientError` and `NoCredentialsError`, returning `false` for them; an
`Except.error` result would model an exception escaping the method. -/
def test_connection (probe : S3ProbeOutcome) : Except S3ProbeOutcome Bool :=
  match head_bucket probe with
  | Except.ok _ => Except.ok true
  | Except.error S3ProbeOutcome.clientError => Except.ok false
  | Except.error S3ProbeOutcome.noCredentialsError => Except.ok false
  | Except.error e => Except.error e

/-- SQLAlchemy row object before flush: `id` may still be unassigned. -/
structure PreRow where
  id : Option Nat
  model_name : String
  s3_key : String
  file_size : Nat
  created_at : Nat
deriving DecidableEq, Repr

/-- A committed row of table `pth_model_metadata`. -/
structure DBRow where
  id : Nat
  model_name : String
  s3_key : String
  file_size : Nat
  created_at : Nat
deriving DecidableEq, Repr

/-- State of the relational store: committed rows and the
auto-increment counter that generates the next primary key. -/
structure DBState where
  rows : List DBRow
  nextId : Nat
deriving DecidableEq, Repr

/-- `PthModelMetadataRepository._convert_to_models_batch`: domain
objects to row objects, keeping an explicit `id` only when present. -/
def convert_to_models_batch (vos : List PthModelMetadata) : List PreRow :=
  vos.map (fun vo =>
    { id := vo.id, model_name := vo.model_name, s3_key := vo.s3_key,
      file_size := vo.file_size, created_at := vo.created_at })

/-- `db.flush()`: the store assigns the auto-increment key to every row
that does not carry one, in list order. Returns the flushed rows and
the advanced counter. -/
def flushAssign (next : Nat) : List PreRow → (List DBRow × Nat)
  | [] => ([], next)
  | r :: rs =>
    match r.id with
    | some i =>
      let rest := flushAssign next rs
      ({ id := i, model_name := r.model_name, s3_key := r.s3_key,
         file_size := r.file_size, created_at := r.created_at } :: rest.1, rest.2)
    | none =>
      let rest := flushAssign (next + 1) rs
      ({ id := next, model_name := r.model_name, s3_key := r.s3_key,
         file_size := r.file_size, created_at := r.created_at } :: rest.1, rest.2)

/-- `PthModelMetadataRepository._convert_to_domains_batch`: flushed
rows back to domain objects, ids now populated. -/
def convert_to_domains_batch (models : List DBRow) : List PthModelMetadata :=
  models.map (fun m =>
    { id := some m.id, model_name := m.model_name, s3_key := m.s3_key,
      file_size := m.file_size, created_at := m.created_at })

/-- Error raised by the repository layer (`SQLAlchemyError`). -/
inductive RepoError where
  | sqlAlchemyError
deriving DecidableEq, Repr

/-- `PthModelMetadataRepository.create_model_metadata_batch`: convert,
`add_all`, `flush` (ids assigned), convert back, `commit`. The ACID
collaborator is modelled by the `dbFail` oracle: on a storage-layer
failure the transaction is rolled back (state unchanged) and the error
re-raised; otherwise all rows are committed. -/
def create_model_metadata_batch (dbFail : Bool) (db : DBState)
    (metadata_list : List PthModelMetadata) :
    Except RepoError (List PthModelMetadata) × DBState :=
  if dbFail then
    (Except.error RepoError.sqlAlchemyError, db)
  else
    let metadata_models := convert_to_models_batch metadata_list
    let flushed := flushAssign db.nextId metadata_models
    (Except.ok (convert_to_domains_batch flushed.1),
     { rows := db.rows ++ flushed.1, nextId := flushed.2 })

/-- `PthModelMetadataRepository.get_model_by_id`: single-row lookup by
primary key, `none` when absent. -/
def get_model_by_id (db : DBState) (model_id : Nat) : Option PthModelMetadata :=
  (db.rows.find? (fun r => r.id == model_id)).map (fun m =>
    { id := some m.id, model_name := m.model_name, s3_key := m.s3_key,
      file_size := m.file_size, created_at := m.created_at })

/-- Insertion step of `ORDER BY id DESC`. -/
def insertDescById (r : DBRow) : List DBRow → List DBRow
  | [] => [r]
  | x :: xs => if x.id ≤ r.id then r :: x :: xs else x :: insertDescById r xs

/-- The relational engine's `ORDER BY id DESC` on the row set. -/
def sortDescById : List DBRow → List DBRow
  | [] => []
  | x :: xs => insertDescById x (sortDescById xs)

/-- `PthModelMetadataRepository.get_models_with_pagination`: rows
ordered by id descending, skipping `offset`, returning at most
`limit`, converted to domain objects. -/
def get_models_with_pagination (db : DBState) (offset limit : Nat) :
    List PthModelMetadata :=
  convert_to_domains_batch (((sortDescById db.rows).drop offset).take limit)

/-- `PthModelMetadataRepository.get_total_count`: `COUNT(id)` over the
table. -/
def get_total_count (db : DBState) : Nat :=
  db.rows.length

/-- Errors escaping the service layer: Python `ValueError` with its
message, a repository `SQLAlchemyError`, or an S3 download failure. -/
inductive ServiceError where
  | valueError (msg : String)
  | repoError
  | s3Error
deriving DecidableEq, Repr

/-- Response model `UploadModelResponse`. -/
structure UploadModelResponse where
  success_count : Nat
  failed_count : Nat
  uploaded_files : List PthModelMetadata
  failed_files : List String
deriving DecidableEq, Repr

/-- Response model `ModelListResponse`. -/
structure ModelListResponse where
  models : List PthModelMetadata
  current_page : Int
  page_size : Int
  total_count : Nat
  total_pages : Nat
deriving DecidableEq, Repr

/-- The domain object the service builds from one successful upload
outcome: `PthModelMetadata(model_name=..., s3_key=..., file_size=...)`
with `id` left at its dataclass default (`None`) and `created_at` at
the construction time `now`. -/
def metadataOfResult (now : Nat) (r : UploadResult) : PthModelMetadata :=
  { model_name := r.model_name, s3_key := r.s3_key.getD "",
    file_size := r.file_size, id := none, created_at := now }

/-- `PthModelService.upload_model_files`: upload every file to S3,
build domain objects for the successful outcomes, persist them as one
batch (skipped when there is no success), then assemble the response —
whose `uploaded_files` entries are constructed afresh from the upload
outcomes (step 6 of the source), not taken from the repository's
returned `saved_metadata`. Returns the service result, the resulting
bucket and table states, and the trace of storage operations. -/
def upload_model_files (putOk : Nat → Bool) (dbFail : Bool) (now : Nat)
    (s3 : S3State) (db : DBState) (files : List UploadFile) :
    Except ServiceError UploadModelResponse × S3State × DBState × List StoreOp :=
  let up := upload_files putOk files s3
  let upload_results := up.1
  let s3' := up.2.1
  let s3ops := up.2.2
  let successful_uploads := upload_results.filter (fun r => r.success)
  let metadata_list := successful_uploads.map (metadataOfResult now)
  let afterDb :
      Except ServiceError Unit × DBState × List StoreOp :=
    if successful_uploads.isEmpty then
      (Except.ok (), db, [])
    else
      match create_model_metadata_batch dbFail db metadata_list with
      | (Except.ok _saved_metadata, db') =>
        (Except.ok (), db', [StoreOp.dbInsertBatch metadata_list])
      | (Except.error _e, db') =>
        (Except.error ServiceError.repoError, db',
         [StoreOp.dbInsertBatch metadata_list])
  match afterDb with
  | (Except.error e, db', dbops) => (Except.error e, s3', db', s3ops ++ dbops)
  | (Except.ok _, db', dbops) =>
    let success_count := successful_uploads.length
    let failed_count := upload_results.length - success_count
    let uploaded_files := successful_uploads.map (metadataOfResult now)
    let failed_files :=
      (upload_results.filter (fun r => !r.success)).map (fun r => r.filename)
    (Except.ok
      { success_count := success_count, failed_count := failed_count,
        uploaded_files := uploaded_files, failed_files := failed_files },
     s3', db', s3ops ++ dbops)

/-- `PthModelService.download_model_file`: look the record up by id
(`ValueError` when absent, before any S3 call), then fetch the bytes
under the record's `s3_key` and return them with the filename
`model_name + ".pth"`. -/
def download_model_file (s3 : S3State) (db : DBState) (model_id : Nat) :
    Except ServiceError (List Nat × String) × List StoreOp :=
  match get_model_by_id db model_id with
  | none =>
    (Except.error (ServiceError.valueError
      ("ID " ++ toString model_id ++ "에 해당하는 모델을 찾을 수 없습니다.")),
     [StoreOp.dbGetById model_id])
  | some model_metadata =>
    match s3GetObject s3 model_metadata.s3_key with
    | none =>
      (Except.error ServiceError.s3Error,
       [StoreOp.dbGetById model_id, StoreOp.s3Get model_metadata.s3_key])
    | some file_data =>
      (Except.ok (file_data, model_metadata.model_name ++ ".pth"),
       [StoreOp.dbGetById model_id, StoreOp.s3Get model_metadata.s3_key])

/-- `PthModelService.get_model_list`: validate the paging parameters
before touching storage (Python `ValueError`), then fetch the page at
`offset = (page - 1) * page_size` and the total count, and compute
`total_pages = (total_count + page_size - 1) // page_size`. The
`dbFail` oracle models a `SQLAlchemyError` from the paged query. -/
def get_model_list (dbFail : Bool) (db : DBState) (page page_size : Int) :
    Except ServiceError ModelListResponse × List StoreOp :=
  if page < 1 then
    (Except.error (ServiceError.valueError "페이지 번호는 1 이상이어야 합니다."), [])
  else if page_size < 1 ∨ page_size > 100 then
    (Except.error (ServiceError.valueError "페이지 크기는 1 이상 100 이하여야 합니다."), [])
  else
    let offset := ((page - 1) * page_size).toNat
    let limit := page_size.toNat
    if dbFail then
      (Except.error ServiceError.repoError, [StoreOp.dbPage offset limit])
    else
      let models := get_models_with_pagination db offset limit
      let total_count := get_total_count db
      let total_pages := (total_count + limit - 1) / limit
      (Except.ok
        { models := models, current_page := page, page_size := page_size,
          total_count := total_count, total_pages := total_pages },
       [StoreOp.dbPage offset limit, StoreOp.dbCount])

/-! ### Helper definitions and lemmas for the verification -/

/-- The outcome dictionary the upload loop records for one file, as a
function of whether its `put_object` call succeeded. -/
def resultOf (ok : Bool) (f : UploadFile) : UploadResult :=
  if ok then
    { filename := f.filename, model_name := replacePthEmpty f.filename,
      s3_key := some f.filename, file_size := f.content.length,
      success := true, error := none }
  else
    { filename := f.filename, model_name := replacePthEmpty f.filename,
      s3_key := none, file_size := 0,
      success := false, error := some "S3 업로드 실패" }

/-- A 25-row table with ids 1..25, used for the concrete pagination
scenario of the specification. -/
def db25 : DBState :=
  { rows := (List.range 25).map (fun i =>
      { id := i + 1, model_name := "m", s3_key := "k", file_size := 0, created_at := 0 }),
    nextId := 26 }

/-- Sample id-less batch for exercising the repository insert. -/
def msC2 : List PthModelMetadata :=
  [{ model_name := "a", s3_key := "k", file_size := 3, id := none, created_at := 5 }]

/-- An empty metadata table. -/
def dbC2 : DBState := { rows := [], nextId := 1 }

/-- A two-file batch whose second store write will be made to fail. -/
def filesC4 : List UploadFile :=
  [{ filename := "f1.pth", content := [1] }, { filename := "f2.pth", content := [2] }]

/-- Put oracle that succeeds only for the first file of a batch. -/
def putOkC4 : Nat → Bool := fun i => i == 0

/-- The response the service produces for `filesC4` under `putOkC4`. -/
def respC4 : UploadModelResponse :=
  { success_count := 1, failed_count := 1,
    uploaded_files := [{ model_name := "f1", s3_key := "f1.pth", file_size := 1,
                         id := none, created_at := 0 }],
    failed_files := ["f2.pth"] }

/-- The batch submitted to the metadata store for `filesC4` under
`putOkC4`: the successful file only. -/
def batchC5 : List PthModelMetadata :=
  [{ model_name := "f1", s3_key := "f1.pth", file_size := 1, id := none, created_at := 0 }]

/-- A one-row metadata table. -/
def dbC6 : DBState :=
  { rows := [{ id := 1, model_name := "a", s3_key := "a.pth", file_size := 1, created_at := 0 }],
    nextId := 2 }

/-- A bucket holding the single object of `dbC6`. -/
def s3C6 : S3State := { objects := [("a.pth", [9])] }

/-- The domain object stored in `dbC6`. -/
def mC6 : PthModelMetadata :=
  { model_name := "a", s3_key := "a.pth", file_size := 1, id := some 1, created_at := 0 }

/-- The upload loop's result list is the pointwise outcome of each file
at its index, independent of the bucket state and of the other files'
outcomes. -/
theorem uploadFilesAux_fst (putOk : Nat → Bool) :
    ∀ (files : List UploadFile) (i : Nat) (st : S3State),
      (uploadFilesAux putOk i files st).1 =
        (List.enumFrom i files).map (fun p => resultOf (putOk p.1) p.2)
  | [], i, st => by simp [uploadFilesAux]
  | f :: fs, i, st => by
    by_cases h : putOk i
    · simp [uploadFilesAux, h, resultOf, uploadFilesAux_fst putOk fs (i + 1)]
    · simp [uploadFilesAux, h, resultOf, uploadFilesAux_fst putOk fs (i + 1)]

theorem upload_files_fst (putOk : Nat → Bool) (files : List UploadFile) (st : S3State) :
    (upload_files putOk files st).1 =
      (List.enumFrom 0 files).map (fun p => resultOf (putOk p.1) p.2) :=
  uploadFilesAux_fst putOk files 0 st

theorem resultOf_success (ok : Bool) (f : UploadFile) :
    (resultOf ok f).success = ok := by
  cases ok <;> simp [resultOf]

theorem resultOf_filename (ok : Bool) (f : UploadFile) :
    (resultOf ok f).filename = f.filename := by
  cases ok <;> simp [resultOf]

theorem resultOf_model_name (ok : Bool) (f : UploadFile) :
    (resultOf ok f).model_name = replacePthEmpty f.filename := by
  cases ok <;> simp [resultOf]

theorem length_filter_not {α : Type} (p : α → Bool) (l : List α) :
    (l.filter p).length + (l.filter (fun a => !p a)).length = l.length := by
  induction l with
  | nil => simp
  | cons a l ih => by_cases h : p a <;> simp [h] <;> omega

/-- Each occurrence removed by `removePthL` shortens the string by
four characters. -/
theorem length_removePthL :
    ∀ l : List Char, (removePthL l).length + 4 * countPth l = l.length := by
  intro l
  induction l using removePthL.induct with
  | case1 rest ih => simp [removePthL, countPth]; omega
  | case2 c cs h ih => simp [removePthL, countPth]; omega
  | case3 => simp [removePthL, countPth]

/-- Flushing a batch of id-less row objects assigns the consecutive
auto-increment keys `next, next + 1, …` in list order. -/
theorem flushAssign_of_id_none : ∀ (ms : List PthModelMetadata) (next : Nat),
    (∀ m ∈ ms, m.id = none) →
    flushAssign next (convert_to_models_batch ms) =
      ((List.enumFrom next ms).map (fun p =>
        { id := p.1, model_name := p.2.model_name, s3_key := p.2.s3_key,
          file_size := p.2.file_size, created_at := p.2.created_at }),
       next + ms.length)
  | [], next, _ => by simp [convert_to_models_batch, flushAssign]
  | m :: ms, next, h => by
    have hm : m.id = none := h m (by simp)
    have ih := flushAssign_of_id_none ms (next + 1) (fun x hx => h x (by simp [hx]))
    simp only [convert_to_models_batch] at ih ⊢
    simp [flushAssign, hm, ih, List.enumFrom_cons]
    omega

/-- When `upload_model_files` returns a response, the response is
determined by the per-file upload outcomes alone, regardless of the
table state and of whether the batch insert was needed. -/
theorem upload_model_files_resp (putOk : Nat → Bool) (dbFail : Bool) (now : Nat)
    (s3 : S3State) (db : DBState) (files : List UploadFile) (resp : UploadModelResponse)
    (h : (upload_model_files putOk dbFail now s3 db files).1 = Except.ok resp) :
    resp =
      { success_count := ((upload_files putOk files s3).1.filter (fun r => r.success)).length,
        failed_count := (upload_files putOk files s3).1.length -
          ((upload_files putOk files s3).1.filter (fun r => r.success)).length,
        uploaded_files :=
          ((upload_files putOk files s3).1.filter (fun r => r.success)).map (metadataOfResult now),
        failed_files :=
          ((upload_files putOk files s3).1.filter (fun r => !r.success)).map (fun r => r.filename) } := by
  by_cases he : ((upload_files putOk files s3).1.filter (fun r => r.success)).isEmpty
  · simp [upload_model_files, he] at h
    exact h.symm
  · cases dbFail
    · simp [upload_model_files, he, create_model_metadata_batch] at h
      exact h.symm
    · simp [upload_model_files, he, create_model_metadata_batch] at h

/-- The trace of storage operations of one `upload_model_files` call:
all per-file put attempts, then the single batch insert when at least
one file uploaded successfully. -/
theorem upload_model_files_ops (putOk : Nat → Bool) (dbFail : Bool) (now : Nat)
    (s3 : S3State) (db : DBState) (files : List UploadFile) :
    (upload_model_files putOk dbFail now s3 db files).2.2.2 =
      (upload_files putOk files s3).2.2 ++
        (if ((upload_files putOk files s3).1.filter (fun r => r.success)).isEmpty then []
         else [StoreOp.dbInsertBatch
           (((upload_files putOk files s3).1.filter (fun r => r.success)).map
             (metadataOfResult now))]) := by
  by_cases he : ((upload_files putOk files s3).1.filter (fun r => r.success)).isEmpty
  · simp [upload_model_files, he]
  · cases dbFail <;> simp [upload_model_files, he, create_model_metadata_batch]

/-- The upload loop attempts one object-store put per file, in order,
whatever the outcomes. -/
theorem uploadFilesAux_ops (putOk : Nat → Bool) :
    ∀ (files : List UploadFile) (i : Nat) (st : S3State),
      (uploadFilesAux putOk i files st).2.2 =
        files.map (fun f => StoreOp.s3Put f.filename)
  | [], i, st => by simp [uploadFilesAux]
  | f :: fs, i, st => by
    by_cases h : putOk i
    · simp [uploadFilesAux, h, uploadFilesAux_ops putOk fs (i + 1)]
    · simp [uploadFilesAux, h, uploadFilesAux_ops putOk fs (i + 1)]

theorem upload_files_ops (putOk : Nat → Bool) (files : List UploadFile) (st : S3State) :
    (upload_files putOk files st).2.2 = files.map (fun f => StoreOp.s3Put f.filename) :=
  uploadFilesAux_ops putOk files 0 st

/-! ### Claim theorems -/

/-- C1: evaluating `upload_model_files` at a one-file batch whose store
write succeeds shows that the ids of the returned `uploaded_files` are
all `none`, even though the repository's batch insert did generate and
return the id (row 1 is committed, and the repository's own response
carries `some 1`): the service rebuilds the response entries from the
pre-insert data and discards `saved_metadata`, so the claim's non-null
ids fail on the code; the length equals `success_count` as claimed. -/
theorem upload_response_ids_stale :
    ∃ resp,
      (upload_model_files (fun _ => true) false 0 ⟨[]⟩ ⟨[], 1⟩
        [{ filename := "alpha.pth", content := [1, 2, 3] }]).1 = Except.ok resp ∧
      resp.uploaded_files.map (fun m => m.id) = [none] ∧
      resp.uploaded_files.length = resp.success_count ∧
      (upload_model_files (fun _ => true) false 0 ⟨[]⟩ ⟨[], 1⟩
        [{ filename := "alpha.pth", content := [1, 2, 3] }]).2.2.1.rows.map
          (fun r => r.id) = [1] ∧
      Except.map (fun l => l.map (fun m => m.id))
        (create_model_metadata_batch false ⟨[], 1⟩
          [{ model_name := "alpha", s3_key := "alpha.pth", file_size := 3,
             id := none, created_at := 0 }]).1 = Except.ok [some 1] :=
  ⟨_, rfl, rfl, rfl, rfl, rfl⟩

/-- C2: the batch insert is atomic. On a storage-layer failure the
transaction is rolled back (the table state is returned unchanged) and
the error propagates; on success every row is committed, the
auto-increment counter advances by the batch size, and the returned
sequence is exactly the input sequence in order, each record now
carrying its generated id `nextId + position`. -/
theorem create_model_metadata_batch_atomic :
    ∀ (db : DBState) (ms : List PthModelMetadata),
      (∀ m ∈ ms, m.id = none) →
      create_model_metadata_batch true db ms = (Except.error RepoError.sqlAlchemyError, db) ∧
      create_model_metadata_batch false db ms =
        (Except.ok ((List.enumFrom db.nextId ms).map (fun p =>
            { model_name := p.2.model_name, s3_key := p.2.s3_key,
              file_size := p.2.file_size, id := some p.1, created_at := p.2.created_at })),
         { rows := db.rows ++ (List.enumFrom db.nextId ms).map (fun p =>
              { id := p.1, model_name := p.2.model_name, s3_key := p.2.s3_key,
                file_size := p.2.file_size, created_at := p.2.created_at }),
           nextId := db.nextId + ms.length }) := by
  intro db ms h
  constructor
  · simp [create_model_metadata_batch]
  · simp [create_model_metadata_batch, flushAssign_of_id_none ms db.nextId h,
          convert_to_domains_batch, List.map_map]

theorem create_model_metadata_batch_atomic_witness :
    (∀ m ∈ msC2, m.id = none) ∧
    create_model_metadata_batch true dbC2 msC2 =
      (Except.error RepoError.sqlAlchemyError, dbC2) ∧
    create_model_metadata_batch false dbC2 msC2 =
      (Except.ok ((List.enumFrom dbC2.nextId msC2).map (fun p =>
          { model_name := p.2.model_name, s3_key := p.2.s3_key,
            file_size := p.2.file_size, id := some p.1, created_at := p.2.created_at })),
       { rows := dbC2.rows ++ (List.enumFrom dbC2.nextId msC2).map (fun p =>
            { id := p.1, model_name := p.2.model_name, s3_key := p.2.s3_key,
              file_size := p.2.file_size, created_at := p.2.created_at }),
         nextId := dbC2.nextId + msC2.length }) :=
  ⟨by decide, (create_model_metadata_batch_atomic dbC2 msC2 (by decide)).1,
   (create_model_metadata_batch_atomic dbC2 msC2 (by decide)).2⟩

/-- C3: for every valid page ≥ 1 and page size in [1,100], the listing
succeeds and returns the slice of the id-descending ordering starting
at offset `(page - 1) * pageSize`, at most `pageSize` records, the
independently fetched total count, and
`totalPages = ceil(totalCount / pageSize)`;
in particular 25 records with page 2 and size 10 yield ids 15..6 and 3
total pages. -/
theorem get_model_list_pagination :
    (∀ (db : DBState) (page ps : Int), 1 ≤ page → 1 ≤ ps → ps ≤ 100 →
      ∃ resp, (get_model_list false db page ps).1 = Except.ok resp ∧
        resp.models = get_models_with_pagination db ((page - 1) * ps).toNat ps.toNat ∧
        resp.models =
          convert_to_domains_batch
            (((sortDescById db.rows).drop ((page - 1) * ps).toNat).take ps.toNat) ∧
        resp.models.length ≤ ps.toNat ∧
        resp.total_count = get_total_count db ∧
        resp.total_pages = resp.total_count ⌈/⌉ ps.toNat) ∧
    Except.map (fun r => (r.models.map (fun m => m.id), r.total_pages))
        (get_model_list false db25 2 10).1 =
      Except.ok ([some 15, some 14, some 13, some 12, some 11,
                  some 10, some 9, some 8, some 7, some 6], 3) := by
  constructor
  · intro db page ps h1 h2 h3
    rw [get_model_list, if_neg (by omega), if_neg (by omega)]
    refine ⟨_, rfl, rfl, rfl, ?_, rfl, ?_⟩
    · simp [get_models_with_pagination, convert_to_domains_batch, List.length_take]
    · exact (Nat.ceilDiv_eq_add_pred_div _ _).symm
  · rfl

theorem get_model_list_pagination_witness :
    (1 ≤ (2 : Int)) ∧ (1 ≤ (10 : Int)) ∧ ((10 : Int) ≤ 100) ∧
    ∃ resp, (get_model_list false db25 2 10).1 = Except.ok resp ∧
      resp.models = get_models_with_pagination db25 (((2 : Int) - 1) * 10).toNat (10 : Int).toNat ∧
      resp.models =
        convert_to_domains_batch
          (((sortDescById db25.rows).drop (((2 : Int) - 1) * 10).toNat).take (10 : Int).toNat) ∧
      resp.models.length ≤ (10 : Int).toNat ∧
      resp.total_count = get_total_count db25 ∧
      resp.total_pages = resp.total_count ⌈/⌉ (10 : Int).toNat :=
  ⟨by decide, by decide, by decide,
   get_model_list_pagination.1 db25 2 10 (by decide) (by decide) (by decide)⟩

/-- C4: whenever `upload_model_files` returns a response,
`successCount + failedCount` equals the number of input files; when
every object-store write succeeds the failed count is zero; and
`failedFiles` is exactly the list of original filenames of the files
whose store write failed (in batch order), so it contains all of them
and none of the successful ones, with one entry per failure. -/
theorem upload_model_files_counts :
    ∀ (putOk : Nat → Bool) (dbFail : Bool) (now : Nat) (s3 : S3State) (db : DBState)
      (files : List UploadFile) (resp : UploadModelResponse),
      (upload_model_files putOk dbFail now s3 db files).1 = Except.ok resp →
      resp.success_count + resp.failed_count = files.length ∧
      ((∀ i, i < files.length → putOk i = true) → resp.failed_count = 0) ∧
      resp.failed_files =
        (files.enum.filter (fun p => !putOk p.1)).map (fun p => p.2.filename) ∧
      resp.failed_files.length = resp.failed_count := by
  intro putOk dbFail now s3 db files resp h
  have hr := upload_model_files_resp putOk dbFail now s3 db files resp h
  have hlenR : (upload_files putOk files s3).1.length = files.length := by
    rw [upload_files_fst]; simp
  have hfs : (upload_files putOk files s3).1.filter (fun r => r.success) =
      ((List.enumFrom 0 files).filter (fun p => putOk p.1)).map
        (fun p => resultOf (putOk p.1) p.2) := by
    rw [upload_files_fst, List.filter_map]
    congr 1
    exact List.filter_congr (fun a ha => by simp [Function.comp, resultOf_success])
  have hff : (upload_files putOk files s3).1.filter (fun r => !r.success) =
      ((List.enumFrom 0 files).filter (fun p => !putOk p.1)).map
        (fun p => resultOf (putOk p.1) p.2) := by
    rw [upload_files_fst, List.filter_map]
    congr 1
    exact List.filter_congr (fun a ha => by simp [Function.comp, resultOf_success])
  have hle := List.length_filter_le (fun r => r.success) (upload_files putOk files s3).1
  have hsum : ((upload_files putOk files s3).1.filter (fun r => r.success)).length +
      ((upload_files putOk files s3).1.filter (fun r => !r.success)).length =
      (upload_files putOk files s3).1.length := by
    simpa using length_filter_not (fun r => r.success) (upload_files putOk files s3).1
  subst hr
  refine ⟨by simp; omega, ?_, ?_, ?_⟩
  · intro hall
    have heq : (List.enumFrom 0 files).filter (fun p => putOk p.1) = List.enumFrom 0 files := by
      apply List.filter_eq_self.mpr
      intro p hp
      have hplt : p.1 < files.length := by
        have := List.mem_enumFrom hp
        omega
      exact hall p.1 hplt
    simp [hfs, heq]
    omega
  · show ((upload_files putOk files s3).1.filter (fun r => !r.success)).map
      (fun r => r.filename) = _
    rw [hff, List.map_map]
    show _ = (List.filter _ (List.enumFrom 0 files)).map _
    congr 1
    funext p
    simp [Function.comp, resultOf_filename]
  · simp
    omega

theorem upload_model_files_counts_witness :
    (upload_model_files putOkC4 false 0 ⟨[]⟩ ⟨[], 1⟩ filesC4).1 = Except.ok respC4 ∧
    (respC4.success_count + respC4.failed_count = filesC4.length ∧
     ((∀ i, i < filesC4.length → putOkC4 i = true) → respC4.failed_count = 0) ∧
     respC4.failed_files =
       (filesC4.enum.filter (fun p => !putOkC4 p.1)).map (fun p => p.2.filename) ∧
     respC4.failed_files.length = respC4.failed_count) :=
  ⟨rfl, upload_model_files_counts putOkC4 false 0 ⟨[]⟩ ⟨[], 1⟩ filesC4 respC4 rfl⟩

/-- C5: per-file upload attempts are independent. Every input file
yields exactly one recorded outcome at its own position, that outcome
depends only on that file and its own put result (so one file's
failure cannot abort the processing of any other file), and any batch
submitted to the metadata store consists exactly of the domain objects
built from the successful outcomes — a file whose store write failed
is never part of it; when nothing succeeds no batch insert happens at
all. -/
theorem upload_per_file_independence :
    ∀ (putOk : Nat → Bool) (dbFail : Bool) (now : Nat) (s3 : S3State) (db : DBState)
      (files : List UploadFile),
      (upload_files putOk files s3).1.length = files.length ∧
      (∀ i f, files[i]? = some f →
        (upload_files putOk files s3).1[i]? = some (resultOf (putOk i) f)) ∧
      (∀ batch, StoreOp.dbInsertBatch batch ∈
          (upload_model_files putOk dbFail now s3 db files).2.2.2 →
        batch = ((upload_files putOk files s3).1.filter (fun r => r.success)).map
          (metadataOfResult now)) ∧
      ((upload_files putOk files s3).1.filter (fun r => r.success) = [] →
        ∀ batch, StoreOp.dbInsertBatch batch ∉
          (upload_model_files putOk dbFail now s3 db files).2.2.2) := by
  intro putOk dbFail now s3 db files
  refine ⟨?_, ?_, ?_, ?_⟩
  · rw [upload_files_fst]; simp
  · intro i f hif
    rw [upload_files_fst, List.getElem?_map, List.getElem?_enumFrom, hif]
    simp
  · intro batch hmem
    rw [upload_model_files_ops, List.mem_append, upload_files_ops] at hmem
    rcases hmem with hmem | hmem
    · rcases List.mem_map.mp hmem with ⟨f, _, hf⟩
      cases hf
    · by_cases he : ((upload_files putOk files s3).1.filter (fun r => r.success)).isEmpty
      · rw [if_pos he] at hmem
        simp at hmem
      · rw [if_neg he] at hmem
        simp at hmem
        exact hmem
  · intro hnil batch hmem
    rw [upload_model_files_ops, List.mem_append, upload_files_ops] at hmem
    rcases hmem with hmem | hmem
    · rcases List.mem_map.mp hmem with ⟨f, _, hf⟩
      cases hf
    · rw [hnil] at hmem
      simp at hmem

theorem upload_per_file_independence_witness :
    filesC4[0]? = some { filename := "f1.pth", content := [1] } ∧
    (upload_files putOkC4 filesC4 ⟨[]⟩).1[0]? =
      some (resultOf (putOkC4 0) { filename := "f1.pth", content := [1] }) ∧
    StoreOp.dbInsertBatch batchC5 ∈
      (upload_model_files putOkC4 false 0 ⟨[]⟩ ⟨[], 1⟩ filesC4).2.2.2 ∧
    batchC5 = ((upload_files putOkC4 filesC4 ⟨[]⟩).1.filter (fun r => r.success)).map
      (metadataOfResult 0) :=
  ⟨rfl,
   (upload_per_file_independence putOkC4 false 0 ⟨[]⟩ ⟨[], 1⟩ filesC4).2.1 0 _ rfl,
   by decide,
   (upload_per_file_independence putOkC4 false 0 ⟨[]⟩ ⟨[], 1⟩ filesC4).2.2.1 batchC5 (by decide)⟩

/-- C6: a download for an id absent from the metadata store fails with
the service's `ValueError` (not-found) after only the lookup — the
operation trace contains no object-store fetch at all; for a present
id whose object exists, the service fetches the bytes under the
record's `s3_key` and returns them with the filename
`model_name + ".pth"`. -/
theorem download_model_file_lookup_first :
    ∀ (s3 : S3State) (db : DBState) (mid : Nat),
      (get_model_by_id db mid = none →
        (download_model_file s3 db mid).1 =
          Except.error (ServiceError.valueError
            ("ID " ++ toString mid ++ "에 해당하는 모델을 찾을 수 없습니다.")) ∧
        (download_model_file s3 db mid).2 = [StoreOp.dbGetById mid] ∧
        ∀ k, StoreOp.s3Get k ∉ (download_model_file s3 db mid).2) ∧
      (∀ m b, get_model_by_id db mid = some m → s3GetObject s3 m.s3_key = some b →
        download_model_file s3 db mid =
          (Except.ok (b, m.model_name ++ ".pth"),
           [StoreOp.dbGetById mid, StoreOp.s3Get m.s3_key])) := by
  intro s3 db mid
  constructor
  · intro hnone
    simp [download_model_file, hnone]
  · intro m b hm hb
    simp [download_model_file, hm, hb]

theorem download_model_file_lookup_first_witness :
    get_model_by_id ⟨[], 1⟩ 7 = none ∧
    (download_model_file ⟨[]⟩ ⟨[], 1⟩ 7).1 =
      Except.error (ServiceError.valueError
        ("ID " ++ toString 7 ++ "에 해당하는 모델을 찾을 수 없습니다.")) ∧
    (download_model_file ⟨[]⟩ ⟨[], 1⟩ 7).2 = [StoreOp.dbGetById 7] ∧
    get_model_by_id dbC6 1 = some mC6 ∧
    s3GetObject s3C6 "a.pth" = some [9] ∧
    download_model_file s3C6 dbC6 1 =
      (Except.ok ([9], mC6.model_name ++ ".pth"),
       [StoreOp.dbGetById 1, StoreOp.s3Get mC6.s3_key]) :=
  ⟨rfl,
   ((download_model_file_lookup_first ⟨[]⟩ ⟨[], 1⟩ 7).1 rfl).1,
   ((download_model_file_lookup_first ⟨[]⟩ ⟨[], 1⟩ 7).1 rfl).2.1,
   rfl, rfl,
   (download_model_file_lookup_first s3C6 dbC6 1).2 mC6 [9] rfl rfl⟩

/-- C7: the listing rejects `page < 1`, and any page size outside
[1,100], with the service's `ValueError` and an empty operation trace
— the validation error is raised before any storage operation; with
valid parameters no validation error is raised, whatever the storage
layer then does. -/
theorem get_model_list_validates_first :
    ∀ (dbFail : Bool) (db : DBState) (page ps : Int),
      (page < 1 →
        get_model_list dbFail db page ps =
          (Except.error (ServiceError.valueError "페이지 번호는 1 이상이어야 합니다."), [])) ∧
      (1 ≤ page → (ps < 1 ∨ 100 < ps) →
        get_model_list dbFail db page ps =
          (Except.error (ServiceError.valueError "페이지 크기는 1 이상 100 이하여야 합니다."), [])) ∧
      (1 ≤ page → 1 ≤ ps → ps ≤ 100 →
        ∀ msg, (get_model_list dbFail db page ps).1 ≠
          Except.error (ServiceError.valueError msg)) := by
  intro dbFail db page ps
  refine ⟨fun h1 => ?_, fun h1 h2 => ?_, fun h1 h2 h3 msg => ?_⟩
  · simp [get_model_list, h1]
  · rw [get_model_list, if_neg (by omega), if_pos (by omega)]
  · rw [get_model_list, if_neg (by omega), if_neg (by omega)]
    cases dbFail <;> simp

theorem get_model_list_validates_first_witness :
    get_model_list false ⟨[], 1⟩ 0 10 =
      (Except.error (ServiceError.valueError "페이지 번호는 1 이상이어야 합니다."), []) ∧
    get_model_list false ⟨[], 1⟩ 1 101 =
      (Except.error (ServiceError.valueError "페이지 크기는 1 이상 100 이하여야 합니다."), []) ∧
    (get_model_list false ⟨[], 1⟩ 1 10).1 ≠
      Except.error (ServiceError.valueError "페이지 번호는 1 이상이어야 합니다.") :=
  ⟨(get_model_list_validates_first false ⟨[], 1⟩ 0 10).1 (by decide),
   (get_model_list_validates_first false ⟨[], 1⟩ 1 101).2.1 (by decide) (Or.inr (by decide)),
   (get_model_list_validates_first false ⟨[], 1⟩ 1 10).2.2 (by decide) (by decide) (by decide) _⟩

/-- C8: for every outcome of the head-bucket probe — success,
`ClientError` or `NoCredentialsError` — `test_connection` returns a
Boolean rather than letting the exception escape, and that Boolean is
`true` exactly when the probe succeeded, `false` on any failure. -/
theorem test_connection_never_throws :
    ∀ p : S3ProbeOutcome, ∃ b : Bool,
      test_connection p = Except.ok b ∧ (b = true ↔ p = S3ProbeOutcome.ok) := by
  intro p
  cases p
  · exact ⟨true, rfl, by simp⟩
  · exact ⟨false, rfl, by simp⟩
  · exact ⟨false, rfl, by simp⟩

/-- C9: uploading a file named "alpha.pth" with arbitrary content B
into any bucket and any well-formed table yields a record named
"alpha" (both in the response and as the newly committed row, whose id
is the generated `nextId`), and downloading that row's id returns the
filename "alpha.pth" together with content byte-identical to B. -/
theorem upload_then_download_roundtrip :
    ∀ (B : List Nat) (now : Nat) (s3 : S3State) (db : DBState),
      (∀ r ∈ db.rows, r.id < db.nextId) →
      ∃ resp,
        (upload_model_files (fun _ => true) false now s3 db
          [{ filename := "alpha.pth", content := B }]).1 = Except.ok resp ∧
        resp.uploaded_files.map (fun m => m.model_name) = ["alpha"] ∧
        (upload_model_files (fun _ => true) false now s3 db
          [{ filename := "alpha.pth", content := B }]).2.2.1.rows =
          db.rows ++ [{ id := db.nextId, model_name := "alpha", s3_key := "alpha.pth",
                        file_size := B.length, created_at := now }] ∧
        (download_model_file
          (upload_model_files (fun _ => true) false now s3 db
            [{ filename := "alpha.pth", content := B }]).2.1
          (upload_model_files (fun _ => true) false now s3 db
            [{ filename := "alpha.pth", content := B }]).2.2.1
          db.nextId).1 = Except.ok (B, "alpha.pth") := by
  intro B now s3 db hinv
  have hname : replacePthEmpty "alpha.pth" = "alpha" := by decide
  have happ : ("alpha" ++ ".pth" : String) = "alpha.pth" := rfl
  have hu : upload_model_files (fun _ => true) false now s3 db
      [{ filename := "alpha.pth", content := B }] =
      (Except.ok { success_count := 1, failed_count := 0,
                   uploaded_files := [{ model_name := "alpha", s3_key := "alpha.pth",
                                        file_size := B.length, id := none, created_at := now }],
                   failed_files := [] },
       { objects := ("alpha.pth", B) :: s3.objects },
       { rows := db.rows ++ [{ id := db.nextId, model_name := "alpha", s3_key := "alpha.pth",
                               file_size := B.length, created_at := now }],
         nextId := db.nextId + 1 },
       [StoreOp.s3Put "alpha.pth",
        StoreOp.dbInsertBatch [{ model_name := "alpha", s3_key := "alpha.pth",
                                 file_size := B.length, id := none, created_at := now }]]) := by
    simp [upload_model_files, upload_files, uploadFilesAux, s3PutObject, hname,
          metadataOfResult, create_model_metadata_batch, convert_to_models_batch,
          flushAssign, convert_to_domains_batch]
  rw [hu]
  refine ⟨_, rfl, rfl, rfl, ?_⟩
  set row : DBRow :=
    { id := db.nextId, model_name := "alpha", s3_key := "alpha.pth",
      file_size := B.length, created_at := now } with hrow
  have hfind : List.find? (fun r => r.id == db.nextId) (db.rows ++ [row]) = some row := by
    rw [List.find?_append]
    have hnone : db.rows.find? (fun r => r.id == db.nextId) = none :=
      List.find?_eq_none.mpr (fun x hx => by simpa using Nat.ne_of_lt (hinv x hx))
    rw [hnone]
    simp [List.find?, hrow]
  simp [download_model_file, get_model_by_id, hfind, s3GetObject, List.find?, happ, hrow]

theorem upload_then_download_roundtrip_witness :
    (∀ r ∈ (⟨[], 1⟩ : DBState).rows, r.id < (⟨[], 1⟩ : DBState).nextId) ∧
    ∃ resp,
      (upload_model_files (fun _ => true) false 0 ⟨[]⟩ ⟨[], 1⟩
        [{ filename := "alpha.pth", content := [1, 2, 3] }]).1 = Except.ok resp ∧
      resp.uploaded_files.map (fun m => m.model_name) = ["alpha"] ∧
      (upload_model_files (fun _ => true) false 0 ⟨[]⟩ ⟨[], 1⟩
        [{ filename := "alpha.pth", content := [1, 2, 3] }]).2.2.1.rows =
        (⟨[], 1⟩ : DBState).rows ++
          [{ id := (⟨[], 1⟩ : DBState).nextId, model_name := "alpha", s3_key := "alpha.pth",
             file_size := ([1, 2, 3] : List Nat).length, created_at := 0 }] ∧
      (download_model_file
        (upload_model_files (fun _ => true) false 0 ⟨[]⟩ ⟨[], 1⟩
          [{ filename := "alpha.pth", content := [1, 2, 3] }]).2.1
        (upload_model_files (fun _ => true) false 0 ⟨[]⟩ ⟨[], 1⟩
          [{ filename := "alpha.pth", content := [1, 2, 3] }]).2.2.1
        (⟨[], 1⟩ : DBState).nextId).1 = Except.ok ([1, 2, 3], "alpha.pth") :=
  ⟨by simp,
   upload_then_download_roundtrip [1, 2, 3] 0 ⟨[]⟩ ⟨[], 1⟩ (by simp)⟩

/-- C10: the derived model name is the filename with every occurrence
of ".pth" removed (the loop applies exactly the replace-all function
to each file), and consequently for every filename in which ".pth"
does not occur exactly once as the final suffix, appending ".pth" to
the derived name cannot reproduce the original filename; concretely,
"a.pth.b.pth" derives the name "a.b" and downloads as "a.b.pth". -/
theorem replace_all_breaks_roundtrip :
    (∀ (putOk : Nat → Bool) (s3 : S3State) (files : List UploadFile) (i : Nat)
        (f : UploadFile), files[i]? = some f →
      Option.map (fun r => r.model_name) ((upload_files putOk files s3).1)[i]? =
        some (replacePthEmpty f.filename)) ∧
    (∀ s : String, ¬(countPth s.data = 1 ∧ ".pth".data <:+ s.data) →
      replacePthEmpty s ++ ".pth" ≠ s) ∧
    replacePthEmpty "a.pth.b.pth" = "a.b" ∧
    Except.map (fun p => p.2)
      (download_model_file
        (upload_model_files (fun _ => true) false 0 ⟨[]⟩ ⟨[], 1⟩
          [{ filename := "a.pth.b.pth", content := [7] }]).2.1
        (upload_model_files (fun _ => true) false 0 ⟨[]⟩ ⟨[], 1⟩
          [{ filename := "a.pth.b.pth", content := [7] }]).2.2.1
        1).1 = Except.ok "a.b.pth" ∧
    ("a.b.pth" : String) ≠ "a.pth.b.pth" := by
  refine ⟨?_, ?_, by decide, rfl, by decide⟩
  · intro putOk s3 files i f hif
    rw [upload_files_fst, List.getElem?_map, List.getElem?_enumFrom, hif]
    simp [resultOf_model_name]
  · intro s h heq
    apply h
    have hd : removePthL s.data ++ ".pth".data = s.data := by
      have h2 := congrArg String.data heq
      rw [String.data_append] at h2
      exact h2
    have hp4 : (".pth".data).length = 4 := by decide
    constructor
    · have hlen := length_removePthL s.data
      have h3 := congrArg List.length hd
      rw [List.length_append] at h3
      omega
    · exact ⟨removePthL s.data, hd⟩

theorem replace_all_breaks_roundtrip_witness :
    ([{ filename := "x.pth", content := [1] }] : List UploadFile)[0]? =
      some { filename := "x.pth", content := [1] } ∧
    Option.map (fun r => r.model_name)
      ((upload_files (fun _ => true) [{ filename := "x.pth", content := [1] }] ⟨[]⟩).1)[0]? =
      some (replacePthEmpty "x.pth") ∧
    ¬(countPth "a.pth.b.pth".data = 1 ∧ ".pth".data <:+ "a.pth.b.pth".data) ∧
    replacePthEmpty "a.pth.b.pth" ++ ".pth" ≠ "a.pth.b.pth" :=
  ⟨rfl,
   replace_all_breaks_roundtrip.1 (fun _ => true) ⟨[]⟩
     [{ filename := "x.pth", content := [1] }] 0 _ rfl,
   fun hcon => absurd hcon.1 (by decide),
   replace_all_breaks_roundtrip.2.1 "a.pth.b.pth" (fun hcon => absurd hcon.1 (by decide))⟩
